import Mathlib

/-!
# webshell: routing.go

A shallow embedding of `routing.go` (package `webshell`) and proofs of the
properties its specification states.

The file has three layers:

* a small model of the parts of Go's `net/http` the source calls
  (`http.Header`, `http.ResponseWriter`, `http.ServeMux`, `http.FileServer`);
* the embedding of the declarations of `routing.go`, under their own names;
* the theorems.

Go strings are modelled by `String`, `[]byte` by `List UInt8`, `int` by `Int`
(no arithmetic is done on status codes, so no overflow can occur). A call that can
panic gives an `Outcome`: the state it leaves and the panic value, if any.

`GenerateTemplateErrorHandler` (lines 59-75) is not embedded as a function: line 60,
`err := CheckTemplate(filename)`, declares again the named result `err` of the same
block, and line 74, `return hdlr`, gives one value for two results, so the Go compiler
refuses the function and no call of it returns anything. Its function literal (lines
64-73) is well formed and is embedded as `templateErrorRoute`.
-/

namespace Webshell

/-! ## `net/http`: headers -/

/-- Token bytes of RFC 7230, as tested by `validHeaderFieldByte` in `net/textproto`. -/
def validHeaderFieldByte (c : Char) : Bool :=
  c.isAlphanum || [33, 35, 36, 37, 38, 39, 42, 43, 45, 46, 94, 95, 96, 124, 126].contains c.toNat

/-- The canonicalising loop of `textproto.CanonicalMIMEHeaderKey`: the first
letter and every letter after a hyphen are upper-cased, the others lower-cased. -/
def canonLoop : Bool → List Char → List Char
  | _, [] => []
  | upper, c :: cs =>
    let c2 := if upper then c.toUpper else c.toLower
    c2 :: canonLoop (c2 == '-') cs

/-- Canonical form `textproto.CanonicalMIMEHeaderKey`: a key holding a byte that is no
token byte is returned unchanged. -/
def canonicalMIMEHeaderKey (s : String) : String :=
  if s.data.all validHeaderFieldByte then String.mk (canonLoop true s.data) else s

/-- A `http.Header`: a map from canonical keys to the values added under them. -/
abbrev Header := List (String × List String)

/-- Values stored under an already canonical key (`h[key]`, nil when absent). -/
def Header.values (h : Header) (key : String) : List String :=
  (h.lookup key).getD []

/-- Append `value` to the entry of an already canonical key (`h[key] = append(h[key], value)`). -/
def Header.addCanon : Header → String → String → Header
  | [], key, value => [(key, [value])]
  | (k, vs) :: rest, key, value =>
    if k = key then (k, vs ++ [value]) :: rest
    else (k, vs) :: Header.addCanon rest key value

/-- Method `Header.Add`: the key is canonicalised, the value appended. -/
def Header.Add (h : Header) (key value : String) : Header :=
  h.addCanon (canonicalMIMEHeaderKey key) value

/-- Method `Header.Values`: all values of the canonicalised key. -/
def Header.Values (h : Header) (key : String) : List String :=
  h.values (canonicalMIMEHeaderKey key)

/-- Method `Header.Get`: the first value of the canonicalised key, `""` when there is none. -/
def Header.Get (h : Header) (key : String) : String :=
  (h.Values key).headD ""

/-! ## `net/http`: the response sink -/

/-- A call received by a `http.ResponseWriter`. -/
inductive SinkCall where
  | writeHeader (status : Int)
  | headerAdd (key value : String)
  | write (bytes : List UInt8)
  deriving DecidableEq, Repr

/-- State of a `http.ResponseWriter`, observed the way `httptest.ResponseRecorder`
records it.

* `header` is the live map returned by `w.Header()`;
* `status` is the status line, once `WriteHeader` has run;
* `sentHeader` is the header set as it stood when the status line was written
  (what goes on the wire: later changes of `header` are not sent);
* `body` is everything written;
* `calls` is the list of calls received, oldest first. -/
structure ResponseWriter where
  header : Header
  status : Option Int
  sentHeader : Header
  body : List UInt8
  calls : List SinkCall
  deriving DecidableEq, Repr

/-- A sink on which nothing has happened yet (`httptest.NewRecorder()`). -/
def NewRecorder : ResponseWriter :=
  { header := [], status := none, sentHeader := [], body := [], calls := [] }

/-- How a call ends: the state it leaves behind and, when it panicked, the panic value. -/
structure Outcome (σ : Type) where
  state : σ
  panic : Option String
  deriving DecidableEq, Repr

/-- The verb `%d` (and `%v`) of `fmt` on an `int`: decimal digits, with a leading minus
sign. -/
def fmtD (i : Int) : String := toString i

/-- Function `checkWriteHeaderCode` of `net/http`: a status below 100 or above 999 is a
panic, whose value is returned. -/
def checkWriteHeaderCode (code : Int) : Option String :=
  if code < 100 ∨ code > 999 then some ("invalid WriteHeader code " ++ fmtD code) else none

/-- Method `WriteHeader`. After a first status line the call is superfluous and changes
nothing; otherwise the code is checked (an invalid one panics and no status line is
written), the status line is fixed and the headers sent with it are frozen. The call is
recorded in every case. -/
def ResponseWriter.WriteHeader (w : ResponseWriter) (status : Int) : Outcome ResponseWriter :=
  let w1 := { w with calls := w.calls ++ [SinkCall.writeHeader status] }
  match w.status with
  | some _ => { state := w1, panic := none }
  | none =>
    match checkWriteHeaderCode status with
    | some p => { state := w1, panic := some p }
    | none => { state := { w1 with status := some status, sentHeader := w.header }, panic := none }

/-- The statement `w.Header().Add(key, value)`: the live map is changed, whatever was
sent before is not. -/
def ResponseWriter.HeaderAdd (w : ResponseWriter) (key value : String) : ResponseWriter :=
  { w with header := w.header.Add key value,
           calls := w.calls ++ [SinkCall.headerAdd key value] }

/-- The constant `http.StatusOK`. -/
def StatusOK : Int := 200

/-- Method `Write`: when `WriteHeader` has not run yet it runs with `http.StatusOK`
first; then the bytes are appended to the body. -/
def ResponseWriter.Write (w : ResponseWriter) (bytes : List UInt8) : ResponseWriter :=
  match w.status with
  | none =>
    { w with status := some StatusOK, sentHeader := w.header, body := w.body ++ bytes,
             calls := w.calls ++ [SinkCall.write bytes] }
  | some _ => { w with body := w.body ++ bytes, calls := w.calls ++ [SinkCall.write bytes] }

/-- A `*http.Request`, as far as a handler can look at it. -/
structure Request where
  Method : String
  URL : String
  Header : Header
  Body : List UInt8
  deriving DecidableEq, Repr

/-- The conversion `[]byte(msg)`: the UTF-8 bytes of the string. -/
def bytesOf (msg : String) : List UInt8 :=
  msg.toUTF8.data.toList

/-! ## `routing.go`: handler types and the plain error-handler factory -/

/-- Type `RouteHandler func(w http.ResponseWriter, r *http.Request)`. The sink is
passed in, its new state is returned, with the panic value if the call panicked. -/
abbrev RouteHandler := ResponseWriter → Request → Outcome ResponseWriter

/-- Type `ErrorRoute func(string, string, http.ResponseWriter, *http.Request)`. -/
abbrev ErrorRoute := String → String → ResponseWriter → Request → Outcome ResponseWriter

/-- The variables of a call of `GenerateErrorHandler` that its function literal captures.
A Go closure holds them by reference: the literal could assign to them, and the next
call of the same handler would find the new values. -/
structure Captured where
  status : Int
  deriving DecidableEq, Repr

/-- The function literal of `GenerateErrorHandler` (routing.go, lines 51-55) as a step on
its captured variables: `w.WriteHeader(status)`, `w.Header().Add("content-type", ctype)`,
`w.Write([]byte(msg))`, in this order, a panic of `WriteHeader` ending the call. The
captured variables as the call leaves them come first in the result. -/
def errorRouteLiteral (c : Captured) (msg ctype : String) (w : ResponseWriter) (_r : Request) :
    Captured × Outcome ResponseWriter :=
  let o := w.WriteHeader c.status
  match o.panic with
  | some p => (c, { state := o.state, panic := some p })
  | none =>
    let w2 := o.state.HeaderAdd "content-type" ctype
    (c, { state := w2.Write (bytesOf msg), panic := none })

/-- Function `GenerateErrorHandler` (routing.go, lines 50-56): the function literal with
the parameter `status` captured. -/
def GenerateErrorHandler (status : Int) : ErrorRoute :=
  fun msg ctype w r => (errorRouteLiteral { status := status } msg ctype w r).2

/-- One invocation of an error handler: its four arguments. -/
structure Invocation where
  msg : String
  ctype : String
  w : ResponseWriter
  r : Request
  deriving DecidableEq, Repr

/-- Successive invocations of one handler value, each on the captured variables the one
before left (a panic ends its own invocation only, as under the `net/http` server): the
captured variables at the end and the outcome of each invocation, in order. -/
def invokeAll : Captured → List Invocation → Captured × List (Outcome ResponseWriter)
  | c, [] => (c, [])
  | c, i :: rest =>
    let step := errorRouteLiteral c i.msg i.ctype i.w i.r
    let tail := invokeAll step.1 rest
    (tail.1, step.2 :: tail.2)

/-! ## `routing.go`: the function literal of the templated error-handler factory -/

/-- A Go `error` value; `Error` is its detail text. -/
structure GoError where
  Error : String
  deriving DecidableEq, Repr

/-- The template collaborators `CheckTemplate` and `ServeTemplate`, which `routing.go`
calls and does not define: they are parameters of the embedding. `ServeTemplate`
gives the rendered bytes or a non-nil error. -/
structure Templates (Data : Type) where
  CheckTemplate : String → Option GoError
  ServeTemplate : String → Data → Except GoError (List UInt8)

/-- What the templated path does besides writing to its sink: calls of the two
collaborators and lines handed to `log.Printf`. -/
inductive Effect (Data : Type) where
  | checkTemplate (filename : String)
  | serveTemplate (filename : String) (data : Data)
  | logPrintf (line : String)
  deriving DecidableEq, Repr

/-- The lines logged in a list of effects, oldest first. -/
def logEntries {Data : Type} : List (Effect Data) → List String
  | [] => []
  | Effect.logPrintf line :: rest => line :: logEntries rest
  | _ :: rest => logEntries rest

/-- The text built by
`log.Printf("error serving template %d %s: %s\n", status, filename, err.Error())`. -/
def errorServingTemplate (status : Int) (filename : String) (err : GoError) : String :=
  "error serving template " ++ fmtD status ++ " " ++ filename ++ ": " ++ err.Error ++ "\n"

/-- Type `TemplateErrorRoute func(interface{}, http.ResponseWriter, *http.Request)`.
The sink and the effects so far are passed in, their new states are returned. -/
abbrev TemplateErrorRoute (Data : Type) :=
  Data → ResponseWriter → Request → List (Effect Data) →
    Outcome ResponseWriter × List (Effect Data)

/-- The function literal assigned to `hdlr` in `GenerateTemplateErrorHandler` (routing.go,
lines 64-73), with `status` and `filename` captured: `ServeTemplate(filename, in)` is
called; on an error one line is logged and the literal returns; otherwise
`w.WriteHeader(status)` and `w.Write(msg)` follow, a panic of `WriteHeader` ending the
call. -/
def templateErrorRoute {Data : Type} (T : Templates Data) (status : Int) (filename : String) :
    TemplateErrorRoute Data :=
  fun data w _r effects =>
    let effects1 := effects ++ [Effect.serveTemplate filename data]
    match T.ServeTemplate filename data with
    | Except.error err =>
      ({ state := w, panic := none },
        effects1 ++ [Effect.logPrintf (errorServingTemplate status filename err)])
    | Except.ok msg =>
      let o := w.WriteHeader status
      match o.panic with
      | some p => ({ state := o.state, panic := some p }, effects1)
      | none => ({ state := o.state.Write msg, panic := none }, effects1)

/-! ## `net/http`: the request multiplexer -/

/-- Type `http.Dir`: a directory path used as a file system root. -/
abbrev Dir := String

/-- The two kinds of `http.Handler` the source registers: a function adapted by
`http.HandlerFunc`, and the file server `http.FileServer(root)`. -/
inductive Handler where
  | HandlerFunc (f : RouteHandler)
  | FileServer (root : Dir)

/-- A `http.ServeMux`: the registered patterns with their handlers, newest first. -/
structure ServeMux where
  m : List (String × Handler)

/-- Function `http.NewServeMux`: an empty table. -/
def NewServeMux : ServeMux := { m := [] }

/-- The handler registered for exactly this pattern, if any. -/
def ServeMux.entry (mux : ServeMux) (pattern : String) : Option Handler :=
  mux.m.lookup pattern

/-- The registered patterns. -/
def ServeMux.patterns (mux : ServeMux) : List String :=
  mux.m.map Prod.fst

/-- What a release of `net/http` refuses to register. `vet ps p nilHandler` is the panic
value with which `ServeMux.Handle` refuses the pattern `p` next to the registered
patterns `ps` (`nilHandler` says that the handler is nil), and `none` when it accepts.
The refusals differ between releases (Go 1.22 also refuses patterns that do not parse
or that conflict with a registered one), and so do the panic values; every release
refuses the empty pattern, a nil handler and a pattern that is registered already. -/
structure MuxRules where
  vet : List String → String → Bool → Option String
  vet_empty : ∀ (ps : List String) (nilHandler : Bool), (vet ps "" nilHandler).isSome = true
  vet_nil : ∀ (ps : List String) (p : String), (vet ps p true).isSome = true
  vet_registered : ∀ (ps : List String) (p : String) (nilHandler : Bool),
    p ∈ ps → (vet ps p nilHandler).isSome = true

/-- The checks of `ServeMux.HandleFunc` and `ServeMux.Handle` up to Go 1.21, with their
panic values. -/
def go121Vet (ps : List String) (p : String) (nilHandler : Bool) : Option String :=
  if nilHandler then some "http: nil handler"
  else if p = "" then some "http: invalid pattern"
  else if p ∈ ps then some ("http: multiple registrations for " ++ p)
  else none

/-- The rules of the releases up to Go 1.21. -/
def go121Rules : MuxRules :=
  { vet := go121Vet,
    vet_empty := by
      intro ps nilHandler
      cases nilHandler <;> simp [go121Vet],
    vet_nil := by
      intro ps p
      simp [go121Vet],
    vet_registered := by
      intro ps p nilHandler hp
      cases nilHandler <;> by_cases h : p = "" <;> simp [go121Vet, hp, h] }

/-- Method `ServeMux.Handle` with a non-nil handler: a refused pattern is a panic that
leaves the table as it was, an accepted one is added to the table. -/
def ServeMux.Handle (rules : MuxRules) (mux : ServeMux) (pattern : String) (handler : Handler) :
    Outcome ServeMux :=
  match rules.vet mux.patterns pattern false with
  | some p => { state := mux, panic := some p }
  | none => { state := { m := (pattern, handler) :: mux.m }, panic := none }

/-- Method `ServeMux.HandleFunc`: a nil `handler` is refused, any other is registered as
`http.HandlerFunc(handler)`. -/
def ServeMux.HandleFunc (rules : MuxRules) (mux : ServeMux) (pattern : String)
    (handler : Option RouteHandler) : Outcome ServeMux :=
  match handler with
  | none =>
    match rules.vet mux.patterns pattern true with
    | some p => { state := mux, panic := some p }
    | none => { state := mux, panic := none }
  | some f => mux.Handle rules pattern (Handler.HandlerFunc f)

/-! ## `routing.go`: package variables, route registration, default handlers -/

/-- The package-level variables of `routing.go`: `RouterMux` and the ten handler
variables `Error400` ... `Error503` (`none` is the nil func). -/
structure Globals where
  RouterMux : ServeMux
  Error400 : Option ErrorRoute
  Error401 : Option ErrorRoute
  Error403 : Option ErrorRoute
  Error404 : Option ErrorRoute
  Error405 : Option ErrorRoute
  Error429 : Option ErrorRoute
  Error500 : Option ErrorRoute
  Error501 : Option ErrorRoute
  Error502 : Option ErrorRoute
  Error503 : Option ErrorRoute

/-- The variables as the declarations of lines 15-34 leave them:
`RouterMux = http.NewServeMux()`, every handler variable nil. -/
def initialGlobals : Globals :=
  { RouterMux := NewServeMux,
    Error400 := none, Error401 := none, Error403 := none, Error404 := none,
    Error405 := none, Error429 := none, Error500 := none, Error501 := none,
    Error502 := none, Error503 := none }

/-- The handler variable named after a status code, nil for a code without one. -/
def Globals.slot (g : Globals) (code : Int) : Option ErrorRoute :=
  if code = 400 then g.Error400
  else if code = 401 then g.Error401
  else if code = 403 then g.Error403
  else if code = 404 then g.Error404
  else if code = 405 then g.Error405
  else if code = 429 then g.Error429
  else if code = 500 then g.Error500
  else if code = 501 then g.Error501
  else if code = 502 then g.Error502
  else if code = 503 then g.Error503
  else none

/-- Function `AddRoute` (routing.go, lines 38-40): `RouterMux.HandleFunc(path, handler)`,
`none` being a nil `handler`. No other package variable is touched and a panic of
`HandleFunc` is passed on. `rules` are the checks of the `net/http` release in use. -/
def AddRoute (rules : MuxRules) (path : String) (handler : Option RouteHandler) (g : Globals) :
    Outcome Globals :=
  let o := g.RouterMux.HandleFunc rules path handler
  { state := { g with RouterMux := o.state }, panic := o.panic }

/-- Function `StaticRoute` (routing.go, lines 45-47):
`RouterMux.Handle(route, http.FileServer(http.Dir(path)))`. -/
def StaticRoute (rules : MuxRules) (route : String) (path : String) (g : Globals) :
    Outcome Globals :=
  let o := g.RouterMux.Handle rules route (Handler.FileServer path)
  { state := { g with RouterMux := o.state }, panic := o.panic }

/-- The constant `http.StatusBadRequest`. -/
def StatusBadRequest : Int := 400
/-- The constant `http.StatusUnauthorized`. -/
def StatusUnauthorized : Int := 401
/-- The constant `http.StatusForbidden`. -/
def StatusForbidden : Int := 403
/-- The constant `http.StatusNotFound`. -/
def StatusNotFound : Int := 404
/-- The constant `http.StatusInternalServerError`. -/
def StatusInternalServerError : Int := 500
/-- The constant `http.StatusNotImplemented`. -/
def StatusNotImplemented : Int := 501
/-- The constant `http.StatusBadGateway`. -/
def StatusBadGateway : Int := 502
/-- The constant `http.StatusServiceUnavailable`. -/
def StatusServiceUnavailable : Int := 503

/-- Function `initDefaultErrors` (routing.go, lines 77-88): nine assignments, none of them
to `Error405`. -/
def initDefaultErrors (g : Globals) : Globals :=
  { g with
    Error400 := some (GenerateErrorHandler StatusBadRequest),
    Error401 := some (GenerateErrorHandler StatusUnauthorized),
    Error403 := some (GenerateErrorHandler StatusForbidden),
    Error404 := some (GenerateErrorHandler StatusNotFound),
    Error429 := some (GenerateErrorHandler 429),
    Error500 := some (GenerateErrorHandler StatusInternalServerError),
    Error501 := some (GenerateErrorHandler StatusNotImplemented),
    Error502 := some (GenerateErrorHandler StatusBadGateway),
    Error503 := some (GenerateErrorHandler StatusServiceUnavailable) }

/-! ## Values the theorems are instantiated at -/

/-- A request for `GET /`. -/
def getRoot : Request := { Method := "GET", URL := "/", Header := [], Body := [] }

/-- A request for `POST /login` with a header and a body. -/
def postLogin : Request :=
  { Method := "POST", URL := "/login", Header := [("Accept", ["text/html"])], Body := [117, 61, 120] }

/-- Template collaborators for which `"valid-template"` is the one template there is, and
rendering fails on empty data and gives the bytes of the data otherwise. -/
def sampleTemplates : Templates String :=
  { CheckTemplate := fun filename =>
      if filename = "valid-template" then none else some { Error := "no such template" },
    ServeTemplate := fun _filename data =>
      if data = "" then Except.error { Error := "render failed" } else Except.ok (bytesOf data) }

/-- A route handler answering 200 with `ok`. -/
def okHandler : RouteHandler :=
  fun w _r => { state := (w.WriteHeader 200).state.Write (bytesOf "ok"), panic := none }

/-- A route handler answering 204. -/
def emptyHandler : RouteHandler := fun w _r => w.WriteHeader 204

/-- The declared variables after `AddRoute("/", okHandler)`. -/
def rootRegistered : Globals :=
  { initialGlobals with RouterMux := { m := [("/", Handler.HandlerFunc okHandler)] } }

/-! ## Lemmas on headers and on the response sink -/

theorem Header.values_addCanon_self (h : Header) (key value : String) :
    (h.addCanon key value).values key = h.values key ++ [value] := by
  induction h with
  | nil => simp [Header.addCanon, Header.values, List.lookup]
  | cons e rest ih =>
    obtain ⟨k, vs⟩ := e
    by_cases hk : k = key
    · subst hk
      simp [Header.addCanon, Header.values, List.lookup]
    · have hk2 : (key == k) = false := by
        simpa using fun hh => hk hh.symm
      simp only [Header.values] at ih
      simp [Header.addCanon, Header.values, List.lookup, hk, hk2, ih]

theorem Header.values_addCanon_other (h : Header) (key key2 value : String) (hne : key2 ≠ key) :
    (h.addCanon key value).values key2 = h.values key2 := by
  induction h with
  | nil =>
    have hk2 : (key2 == key) = false := by simpa using hne
    simp [Header.addCanon, Header.values, List.lookup, hk2]
  | cons e rest ih =>
    obtain ⟨k, vs⟩ := e
    simp only [Header.values] at ih
    by_cases hk : k = key
    · subst hk
      have hk2 : (key2 == k) = false := by simpa using hne
      simp [Header.addCanon, Header.values, List.lookup, hk2]
    · by_cases hk3 : key2 = k
      · subst hk3
        simp [Header.addCanon, Header.values, List.lookup, hk]
      · have hk2 : (key2 == k) = false := by simpa using hk3
        simp [Header.addCanon, Header.values, List.lookup, hk, hk2, ih]

theorem Header.Values_Add_self (h : Header) (key value : String) :
    (h.Add key value).Values key = h.Values key ++ [value] := by
  simp [Header.Add, Header.Values, Header.values_addCanon_self]

theorem get_contentType_singleton (ctype : String) :
    Header.Get [("Content-Type", [ctype])] "content-type" = ctype := by
  have hk : canonicalMIMEHeaderKey "content-type" = "Content-Type" := by decide
  simp [Header.Get, Header.Values, Header.values, List.lookup, hk]

theorem checkWriteHeaderCode_valid (s : Int) (hlo : 100 ≤ s) (hhi : s ≤ 999) :
    checkWriteHeaderCode s = none := by
  have h : ¬ (s < 100 ∨ s > 999) := by omega
  simp [checkWriteHeaderCode, h]

theorem checkWriteHeaderCode_invalid (s : Int) (h : ¬ (100 ≤ s ∧ s ≤ 999)) :
    checkWriteHeaderCode s = some ("invalid WriteHeader code " ++ fmtD s) := by
  have h2 : s < 100 ∨ s > 999 := by omega
  simp [checkWriteHeaderCode, h2]

/-- The three calls of the function literal of `GenerateErrorHandler`, spelled out on a
sink whose status line is not written yet, for a status `WriteHeader` accepts. -/
theorem generateErrorHandler_valid (s : Int) (msg ctype : String) (w : ResponseWriter)
    (r : Request) (hlo : 100 ≤ s) (hhi : s ≤ 999) (hstatus : w.status = none) :
    GenerateErrorHandler s msg ctype w r =
      { state :=
          { header := w.header.Add "content-type" ctype,
            status := some s,
            sentHeader := w.header,
            body := w.body ++ bytesOf msg,
            calls := w.calls ++ [SinkCall.writeHeader s,
              SinkCall.headerAdd "content-type" ctype, SinkCall.write (bytesOf msg)] },
        panic := none } := by
  simp [GenerateErrorHandler, errorRouteLiteral, ResponseWriter.WriteHeader,
    ResponseWriter.HeaderAdd, ResponseWriter.Write, hstatus,
    checkWriteHeaderCode_valid s hlo hhi]

/-- The one call made for a status `WriteHeader` refuses. -/
theorem generateErrorHandler_invalid (s : Int) (msg ctype : String) (w : ResponseWriter)
    (r : Request) (h : ¬ (100 ≤ s ∧ s ≤ 999)) (hstatus : w.status = none) :
    GenerateErrorHandler s msg ctype w r =
      { state := { w with calls := w.calls ++ [SinkCall.writeHeader s] },
        panic := some ("invalid WriteHeader code " ++ fmtD s) } := by
  simp [GenerateErrorHandler, errorRouteLiteral, ResponseWriter.WriteHeader, hstatus,
    checkWriteHeaderCode_invalid s h]

/-- On a new recorder, for a status `WriteHeader` accepts. -/
theorem generateErrorHandler_newRecorder (s : Int) (msg ctype : String) (r : Request)
    (hlo : 100 ≤ s) (hhi : s ≤ 999) :
    GenerateErrorHandler s msg ctype NewRecorder r =
      { state :=
          { header := [("Content-Type", [ctype])],
            status := some s,
            sentHeader := [],
            body := bytesOf msg,
            calls := [SinkCall.writeHeader s, SinkCall.headerAdd "content-type" ctype,
              SinkCall.write (bytesOf msg)] },
        panic := none } := by
  rw [generateErrorHandler_valid s msg ctype NewRecorder r hlo hhi rfl]
  have hk : canonicalMIMEHeaderKey "content-type" = "Content-Type" := by decide
  simp [NewRecorder, Header.Add, Header.addCanon, hk]

/-- The first call a handler makes on a new recorder is `WriteHeader` with its status. -/
theorem generateErrorHandler_first_call (s : Int) (msg ctype : String) (r : Request) :
    (GenerateErrorHandler s msg ctype NewRecorder r).state.calls.head? =
      some (SinkCall.writeHeader s) := by
  by_cases h : 100 ≤ s ∧ s ≤ 999
  · rw [generateErrorHandler_newRecorder s msg ctype r h.1 h.2]
    rfl
  · rw [generateErrorHandler_invalid s msg ctype NewRecorder r h rfl]
    rfl

/-- Two handlers made by `GenerateErrorHandler` are the same function only when they
were made for the same status. -/
theorem generateErrorHandler_injective (a b : Int)
    (h : GenerateErrorHandler a = GenerateErrorHandler b) : a = b := by
  have h1 := generateErrorHandler_first_call a "" "" getRoot
  rw [h, generateErrorHandler_first_call b "" "" getRoot] at h1
  injection h1 with h2
  injection h2 with h3
  exact h3.symm

/-- The function literal of `GenerateErrorHandler` assigns to no captured variable. -/
theorem errorRouteLiteral_captured (c : Captured) (msg ctype : String) (w : ResponseWriter)
    (r : Request) : (errorRouteLiteral c msg ctype w r).1 = c := by
  simp only [errorRouteLiteral]
  split <;> rfl


/-- Successive invocations of one handler leave its captured variables as they were, and
each outcome is the one the function literal gives on those variables. -/
theorem invokeAll_eq (c : Captured) (calls : List Invocation) :
    invokeAll c calls =
      (c, calls.map (fun i => (errorRouteLiteral c i.msg i.ctype i.w i.r).2)) := by
  induction calls with
  | nil => rfl
  | cons i rest ih =>
    simp only [invokeAll, errorRouteLiteral_captured, ih, List.map_cons]

/-! ## The plain error handler -/

/-- C1, as stated, fails at the status 0 (an `int` the factory accepts): `WriteHeader(0)`
panics, so the sink gets no status line, no content-type value and no body. -/
theorem generateErrorHandler_status_zero_panics :
    (GenerateErrorHandler 0 "boom" "text/plain" NewRecorder getRoot).panic =
      some "invalid WriteHeader code 0" ∧
    (GenerateErrorHandler 0 "boom" "text/plain" NewRecorder getRoot).state.status = none ∧
    (GenerateErrorHandler 0 "boom" "text/plain" NewRecorder getRoot).state.status ≠ some 0 ∧
    (GenerateErrorHandler 0 "boom" "text/plain" NewRecorder getRoot).state.header.Values
      "content-type" = [] ∧
    (GenerateErrorHandler 0 "boom" "text/plain" NewRecorder getRoot).state.body = [] ∧
    (GenerateErrorHandler 0 "boom" "text/plain" NewRecorder getRoot).state.body ≠
      bytesOf "boom" := by
  decide

/-- C1, amended: for a status `s` from 100 to 999, on a sink on which nothing has been
written (no status line, no body), the handler made by `GenerateErrorHandler s`, called
with `msg`, `ctype` and any request, returns without a panic and leaves the sink with
the status `s` and with the bytes of `msg` as its body. For a status outside 100 to 999
the call panics in `WriteHeader` and the sink gets neither a status line nor a body. -/
theorem generateErrorHandler_response (s : Int) (msg ctype : String) (r : Request)
    (w : ResponseWriter) (hlo : 100 ≤ s) (hhi : s ≤ 999) (hstatus : w.status = none)
    (hbody : w.body = []) :
    (GenerateErrorHandler s msg ctype w r).panic = none ∧
    (GenerateErrorHandler s msg ctype w r).state.status = some s ∧
    (GenerateErrorHandler s msg ctype w r).state.body = bytesOf msg ∧
    (∀ s2 : Int, ¬ (100 ≤ s2 ∧ s2 ≤ 999) →
      (GenerateErrorHandler s2 msg ctype w r).panic =
        some ("invalid WriteHeader code " ++ fmtD s2) ∧
      (GenerateErrorHandler s2 msg ctype w r).state.status = none ∧
      (GenerateErrorHandler s2 msg ctype w r).state.body = []) := by
  rw [generateErrorHandler_valid s msg ctype w r hlo hhi hstatus]
  refine ⟨rfl, rfl, by simp [hbody], ?_⟩
  intro s2 h2
  rw [generateErrorHandler_invalid s2 msg ctype w r h2 hstatus]
  exact ⟨rfl, hstatus, hbody⟩

theorem generateErrorHandler_response_witness :
    (GenerateErrorHandler 404 "boom" "text/plain" NewRecorder getRoot).panic = none ∧
    (GenerateErrorHandler 404 "boom" "text/plain" NewRecorder getRoot).state.status =
      some 404 ∧
    (GenerateErrorHandler 404 "boom" "text/plain" NewRecorder getRoot).state.body =
      bytesOf "boom" ∧
    (∀ s2 : Int, ¬ (100 ≤ s2 ∧ s2 ≤ 999) →
      (GenerateErrorHandler s2 "boom" "text/plain" NewRecorder getRoot).panic =
        some ("invalid WriteHeader code " ++ fmtD s2) ∧
      (GenerateErrorHandler s2 "boom" "text/plain" NewRecorder getRoot).state.status = none ∧
      (GenerateErrorHandler s2 "boom" "text/plain" NewRecorder getRoot).state.body = []) :=
  generateErrorHandler_response 404 "boom" "text/plain" getRoot NewRecorder (by decide)
    (by decide) rfl rfl

/-- C6: a handler made by `GenerateErrorHandler` keeps no state and does not look at the
request. One invocation leaves the captured variable `status` as it was; after any list
of invocations of one handler the captured variable is still `s` and every outcome is
the one a handler newly made for `s` gives on the same `msg`, `ctype` and sink, whatever
the invocations before it were; two requests give the same outcome; and two invocations
of the 404 handler with different `msg` and `ctype` on two new recorders each make their
own three calls and leave their own body. -/
theorem generateErrorHandler_stateless (s : Int) (msg ctype : String) (w : ResponseWriter)
    (r1 r2 : Request) (calls : List Invocation) :
    (errorRouteLiteral { status := s } msg ctype w r1).1 = { status := s } ∧
    (invokeAll { status := s } calls).1 = { status := s } ∧
    (invokeAll { status := s } calls).2 =
      calls.map (fun i => GenerateErrorHandler s i.msg i.ctype i.w getRoot) ∧
    (invokeAll { status := s } (calls ++ [{ msg := msg, ctype := ctype, w := w, r := r1 }])).2 =
      (invokeAll { status := s } calls).2 ++ [GenerateErrorHandler s msg ctype w r2] ∧
    GenerateErrorHandler s msg ctype w r1 = GenerateErrorHandler s msg ctype w r2 ∧
    (invokeAll { status := 404 }
        [{ msg := "boom", ctype := "text/plain", w := NewRecorder, r := getRoot },
         { msg := "gone", ctype := "text/html", w := NewRecorder, r := postLogin }]).2.map
      (fun o => (o.panic, o.state.status, o.state.body, o.state.calls)) =
      [(none, some 404, [98, 111, 111, 109],
          [SinkCall.writeHeader 404, SinkCall.headerAdd "content-type" "text/plain",
            SinkCall.write [98, 111, 111, 109]]),
       (none, some 404, [103, 111, 110, 101],
          [SinkCall.writeHeader 404, SinkCall.headerAdd "content-type" "text/html",
            SinkCall.write [103, 111, 110, 101]])] := by
  refine ⟨errorRouteLiteral_captured _ _ _ _ _, ?_, ?_, ?_, rfl, by decide⟩
  · rw [invokeAll_eq]
  · rw [invokeAll_eq]
    rfl
  · simp only [invokeAll_eq, List.map_append, List.map_cons, List.map_nil]
    rfl

/-- C7: on a new recorder the handler made by `GenerateErrorHandler s` makes, for a
status from 100 to 999, exactly three calls, `WriteHeader(s)`, then
`Header().Add("content-type", ctype)`, then `Write([]byte(msg))` (for any other status
`WriteHeader` panics and is the only call). The headers sent with the status line are
the ones present when `WriteHeader` ran, so for every status the content-type is not
among the headers sent: added after `WriteHeader`, it is in the live header map only.
At 404, `"boom"`, `"text/plain"` the three calls are made and `text/plain` is not sent. -/
theorem generateErrorHandler_contentType_not_sent (s : Int) (msg ctype : String) (r : Request) :
    (if 100 ≤ s ∧ s ≤ 999 then
      (GenerateErrorHandler s msg ctype NewRecorder r).panic = none ∧
      (GenerateErrorHandler s msg ctype NewRecorder r).state.calls =
        [SinkCall.writeHeader s, SinkCall.headerAdd "content-type" ctype,
          SinkCall.write (bytesOf msg)] ∧
      (GenerateErrorHandler s msg ctype NewRecorder r).state.header.Values "content-type" =
        [ctype]
    else
      (GenerateErrorHandler s msg ctype NewRecorder r).panic =
        some ("invalid WriteHeader code " ++ fmtD s) ∧
      (GenerateErrorHandler s msg ctype NewRecorder r).state.calls =
        [SinkCall.writeHeader s] ∧
      (GenerateErrorHandler s msg ctype NewRecorder r).state.header.Values "content-type" =
        []) ∧
    (GenerateErrorHandler s msg ctype NewRecorder r).state.sentHeader = [] ∧
    (GenerateErrorHandler s msg ctype NewRecorder r).state.sentHeader.Values "content-type" =
      [] ∧
    (GenerateErrorHandler 404 "boom" "text/plain" NewRecorder getRoot).state.calls =
      [SinkCall.writeHeader 404, SinkCall.headerAdd "content-type" "text/plain",
        SinkCall.write (bytesOf "boom")] ∧
    (GenerateErrorHandler 404 "boom" "text/plain" NewRecorder getRoot).state.header.Values
      "content-type" = ["text/plain"] ∧
    (GenerateErrorHandler 404 "boom" "text/plain" NewRecorder getRoot).state.sentHeader.Get
      "content-type" ≠ "text/plain" := by
  have hk : canonicalMIMEHeaderKey "content-type" = "Content-Type" := by decide
  by_cases h : 100 ≤ s ∧ s ≤ 999
  · rw [if_pos h, generateErrorHandler_newRecorder s msg ctype r h.1 h.2]
    refine ⟨⟨rfl, rfl, ?_⟩, rfl, ?_, by decide, by decide, by decide⟩
    · simp [Header.Values, Header.values, List.lookup, hk]
    · simp [Header.Values, Header.values, List.lookup]
  · rw [if_neg h, generateErrorHandler_invalid s msg ctype NewRecorder r h rfl]
    refine ⟨⟨rfl, rfl, ?_⟩, rfl, ?_, by decide, by decide, by decide⟩
    · simp [NewRecorder, Header.Values, Header.values, List.lookup]
    · simp [NewRecorder, Header.Values, Header.values, List.lookup]

/-! ## The default error set -/

/-- C2: after `initDefaultErrors`, for each code `c` of 400, 401, 403, 404, 429, 500,
501, 502, 503 the variable named after `c` is set, it is `GenerateErrorHandler c` and
the handler of no other code, and called with `"boom"` and `"text/plain"` on a new
recorder it gives the status `c` and the body `"boom"`. The content type `"text/plain"`
is in the live header map only: the headers sent with the status line hold no
content-type. -/
theorem initDefaultErrors_slots (g : Globals) (c : Int) (r : Request)
    (hc : c ∈ [400, 401, 403, 404, 429, 500, 501, 502, 503]) :
    ∃ h : ErrorRoute, (initDefaultErrors g).slot c = some h ∧
      h = GenerateErrorHandler c ∧
      (∀ c2 : Int, h = GenerateErrorHandler c2 → c2 = c) ∧
      (h "boom" "text/plain" NewRecorder r).panic = none ∧
      (h "boom" "text/plain" NewRecorder r).state.status = some c ∧
      (h "boom" "text/plain" NewRecorder r).state.body = [98, 111, 111, 109] ∧
      (h "boom" "text/plain" NewRecorder r).state.header.Get "content-type" = "text/plain" ∧
      (h "boom" "text/plain" NewRecorder r).state.sentHeader = [] ∧
      (h "boom" "text/plain" NewRecorder r).state.sentHeader.Get "content-type" = "" ∧
      (h "boom" "text/plain" NewRecorder r).state.sentHeader.Get "content-type" ≠
        "text/plain" := by
  have hr : 100 ≤ c ∧ c ≤ 999 := by
    simp only [List.mem_cons, List.mem_singleton, List.not_mem_nil, or_false] at hc
    omega
  refine ⟨GenerateErrorHandler c, ?_, rfl, ?_, ?_⟩
  · simp only [List.mem_cons, List.mem_singleton, List.not_mem_nil, or_false] at hc
    rcases hc with rfl | rfl | rfl | rfl | rfl | rfl | rfl | rfl | rfl <;> rfl
  · intro c2 h2
    exact (generateErrorHandler_injective c c2 h2).symm
  · rw [generateErrorHandler_newRecorder c "boom" "text/plain" r hr.1 hr.2]
    refine ⟨rfl, rfl, ?_, get_contentType_singleton "text/plain", rfl, ?_, ?_⟩
    · show bytesOf "boom" = [98, 111, 111, 109]
      decide
    · show Header.Get [] "content-type" = ""
      decide
    · show Header.Get [] "content-type" ≠ "text/plain"
      decide

theorem initDefaultErrors_slots_witness :
    ∃ h : ErrorRoute, (initDefaultErrors initialGlobals).slot 404 = some h ∧
      h = GenerateErrorHandler 404 ∧
      (∀ c2 : Int, h = GenerateErrorHandler c2 → c2 = 404) ∧
      (h "boom" "text/plain" NewRecorder postLogin).panic = none ∧
      (h "boom" "text/plain" NewRecorder postLogin).state.status = some 404 ∧
      (h "boom" "text/plain" NewRecorder postLogin).state.body = [98, 111, 111, 109] ∧
      (h "boom" "text/plain" NewRecorder postLogin).state.header.Get "content-type" =
        "text/plain" ∧
      (h "boom" "text/plain" NewRecorder postLogin).state.sentHeader = [] ∧
      (h "boom" "text/plain" NewRecorder postLogin).state.sentHeader.Get "content-type" = "" ∧
      (h "boom" "text/plain" NewRecorder postLogin).state.sentHeader.Get "content-type" ≠
        "text/plain" :=
  initDefaultErrors_slots initialGlobals 404 postLogin (by decide)

/-- C8: running `initDefaultErrors` a second time changes nothing: from every state of
the package variables, two runs give the state one run gives, and in it each of the
nine variables holds `GenerateErrorHandler` of its own code. -/
theorem initDefaultErrors_idempotent (g : Globals) :
    initDefaultErrors (initDefaultErrors g) = initDefaultErrors g ∧
    (initDefaultErrors g).Error400 = some (GenerateErrorHandler 400) ∧
    (initDefaultErrors g).Error401 = some (GenerateErrorHandler 401) ∧
    (initDefaultErrors g).Error403 = some (GenerateErrorHandler 403) ∧
    (initDefaultErrors g).Error404 = some (GenerateErrorHandler 404) ∧
    (initDefaultErrors g).Error429 = some (GenerateErrorHandler 429) ∧
    (initDefaultErrors g).Error500 = some (GenerateErrorHandler 500) ∧
    (initDefaultErrors g).Error501 = some (GenerateErrorHandler 501) ∧
    (initDefaultErrors g).Error502 = some (GenerateErrorHandler 502) ∧
    (initDefaultErrors g).Error503 = some (GenerateErrorHandler 503) :=
  ⟨rfl, rfl, rfl, rfl, rfl, rfl, rfl, rfl, rfl, rfl⟩

/-- C10: `initDefaultErrors` assigns nine of the ten handler variables and leaves
`Error405` and `RouterMux` as they were; started from the declared (nil) variables,
`Error405` is still nil afterwards while the nine others are set. -/
theorem initDefaultErrors_skips_405 (g : Globals) :
    (initDefaultErrors g).Error405 = g.Error405 ∧
    (initDefaultErrors g).RouterMux = g.RouterMux ∧
    (initDefaultErrors g).slot 405 = g.slot 405 ∧
    [400, 401, 403, 404, 429, 500, 501, 502, 503].all
      (fun c => ((initDefaultErrors g).slot c).isSome) = true ∧
    ((initDefaultErrors initialGlobals).Error405).isNone = true :=
  ⟨rfl, rfl, rfl, rfl, rfl⟩

/-! ## The function literal of the templated error handler -/

theorem templateErrorRoute_ok {Data : Type} (T : Templates Data) (s : Int) (f : String)
    (d : Data) (b : List UInt8) (w : ResponseWriter) (r : Request)
    (effects : List (Effect Data)) (hlo : 100 ≤ s) (hhi : s ≤ 999) (hstatus : w.status = none)
    (hserve : T.ServeTemplate f d = Except.ok b) :
    templateErrorRoute T s f d w r effects =
      ({ state :=
          { header := w.header, status := some s, sentHeader := w.header, body := w.body ++ b,
            calls := w.calls ++ [SinkCall.writeHeader s, SinkCall.write b] },
         panic := none },
        effects ++ [Effect.serveTemplate f d]) := by
  simp [templateErrorRoute, hserve, ResponseWriter.WriteHeader, ResponseWriter.Write, hstatus,
    checkWriteHeaderCode_valid s hlo hhi]

theorem templateErrorRoute_invalid {Data : Type} (T : Templates Data) (s : Int) (f : String)
    (d : Data) (b : List UInt8) (w : ResponseWriter) (r : Request)
    (effects : List (Effect Data)) (h : ¬ (100 ≤ s ∧ s ≤ 999)) (hstatus : w.status = none)
    (hserve : T.ServeTemplate f d = Except.ok b) :
    templateErrorRoute T s f d w r effects =
      ({ state := { w with calls := w.calls ++ [SinkCall.writeHeader s] },
         panic := some ("invalid WriteHeader code " ++ fmtD s) },
        effects ++ [Effect.serveTemplate f d]) := by
  simp [templateErrorRoute, hserve, ResponseWriter.WriteHeader, hstatus,
    checkWriteHeaderCode_invalid s h]

theorem templateErrorRoute_error {Data : Type} (T : Templates Data) (s : Int) (f : String)
    (d : Data) (e : GoError) (w : ResponseWriter) (r : Request)
    (effects : List (Effect Data)) (hserve : T.ServeTemplate f d = Except.error e) :
    templateErrorRoute T s f d w r effects =
      ({ state := w, panic := none },
        effects ++ [Effect.serveTemplate f d, Effect.logPrintf (errorServingTemplate s f e)]) := by
  simp [templateErrorRoute, hserve]

theorem logEntries_append {Data : Type} (xs ys : List (Effect Data)) :
    logEntries (xs ++ ys) = logEntries xs ++ logEntries ys := by
  induction xs with
  | nil => rfl
  | cons x rest ih => cases x <;> simp [logEntries, ih]

/-- C4, as stated, fails at the status 0: the template renders, `WriteHeader(0)` panics,
and the sink gets neither the status nor the rendered body. -/
theorem templateHandler_status_zero_panics :
    sampleTemplates.CheckTemplate "valid-template" = none ∧
    (templateErrorRoute sampleTemplates 0 "valid-template" "oops" NewRecorder getRoot []).1.panic =
      some "invalid WriteHeader code 0" ∧
    (templateErrorRoute sampleTemplates 0 "valid-template" "oops" NewRecorder getRoot
      []).1.state.status ≠ some 0 ∧
    (templateErrorRoute sampleTemplates 0 "valid-template" "oops" NewRecorder getRoot
      []).1.state.body = [] ∧
    (templateErrorRoute sampleTemplates 0 "valid-template" "oops" NewRecorder getRoot
      []).1.state.body ≠ [111, 111, 112, 115] ∧
    (templateErrorRoute sampleTemplates 0 "valid-template" "oops" NewRecorder getRoot []).2 =
      [Effect.serveTemplate "valid-template" "oops"] := by
  decide

/-- C4, amended: for a status `s` from 100 to 999, when `ServeTemplate(f, d)` gives the
bytes `b`, the function literal that `GenerateTemplateErrorHandler` builds for `s` and
`f` (lines 64-73), called with `d` on a sink on which nothing has been written, returns
without a panic and leaves the sink with the status `s` and the body `b`; the header
map is the one the sink had, the calls made are `WriteHeader(s)` and `Write(b)` and no
header call, and the template rendered is `f`. For a status outside 100 to 999 the call
panics in `WriteHeader` and the sink gets neither a status line nor a body. -/
theorem templateHandler_success {Data : Type} (T : Templates Data) (s : Int) (f : String)
    (d : Data) (b : List UInt8) (w : ResponseWriter) (r : Request)
    (effects : List (Effect Data))
    (hlo : 100 ≤ s) (hhi : s ≤ 999) (hserve : T.ServeTemplate f d = Except.ok b)
    (hstatus : w.status = none) (hbody : w.body = []) :
    (templateErrorRoute T s f d w r effects).1.panic = none ∧
    (templateErrorRoute T s f d w r effects).1.state.status = some s ∧
    (templateErrorRoute T s f d w r effects).1.state.body = b ∧
    (templateErrorRoute T s f d w r effects).1.state.header = w.header ∧
    (templateErrorRoute T s f d w r effects).1.state.sentHeader = w.header ∧
    (templateErrorRoute T s f d w r effects).1.state.calls =
      w.calls ++ [SinkCall.writeHeader s, SinkCall.write b] ∧
    (templateErrorRoute T s f d w r effects).2 = effects ++ [Effect.serveTemplate f d] ∧
    (∀ s2 : Int, ¬ (100 ≤ s2 ∧ s2 ≤ 999) →
      (templateErrorRoute T s2 f d w r effects).1.panic =
        some ("invalid WriteHeader code " ++ fmtD s2) ∧
      (templateErrorRoute T s2 f d w r effects).1.state.status = none ∧
      (templateErrorRoute T s2 f d w r effects).1.state.body = []) := by
  rw [templateErrorRoute_ok T s f d b w r effects hlo hhi hstatus hserve]
  refine ⟨rfl, rfl, by simp [hbody], rfl, rfl, rfl, rfl, ?_⟩
  intro s2 h2
  rw [templateErrorRoute_invalid T s2 f d b w r effects h2 hstatus hserve]
  exact ⟨rfl, hstatus, hbody⟩

theorem templateHandler_success_witness :
    sampleTemplates.ServeTemplate "valid-template" "oops" = Except.ok [111, 111, 112, 115] ∧
    (templateErrorRoute sampleTemplates 500 "valid-template" "oops" NewRecorder getRoot
      []).1.panic = none ∧
    (templateErrorRoute sampleTemplates 500 "valid-template" "oops" NewRecorder getRoot
      []).1.state.status = some 500 ∧
    (templateErrorRoute sampleTemplates 500 "valid-template" "oops" NewRecorder getRoot
      []).1.state.body = [111, 111, 112, 115] ∧
    (templateErrorRoute sampleTemplates 500 "valid-template" "oops" NewRecorder getRoot
      []).1.state.header = NewRecorder.header ∧
    (templateErrorRoute sampleTemplates 500 "valid-template" "oops" NewRecorder getRoot
      []).1.state.sentHeader = NewRecorder.header ∧
    (templateErrorRoute sampleTemplates 500 "valid-template" "oops" NewRecorder getRoot
      []).1.state.calls =
      NewRecorder.calls ++ [SinkCall.writeHeader 500, SinkCall.write [111, 111, 112, 115]] ∧
    (templateErrorRoute sampleTemplates 500 "valid-template" "oops" NewRecorder getRoot []).2 =
      [] ++ [Effect.serveTemplate "valid-template" "oops"] ∧
    (∀ s2 : Int, ¬ (100 ≤ s2 ∧ s2 ≤ 999) →
      (templateErrorRoute sampleTemplates s2 "valid-template" "oops" NewRecorder getRoot
        []).1.panic = some ("invalid WriteHeader code " ++ fmtD s2) ∧
      (templateErrorRoute sampleTemplates s2 "valid-template" "oops" NewRecorder getRoot
        []).1.state.status = none ∧
      (templateErrorRoute sampleTemplates s2 "valid-template" "oops" NewRecorder getRoot
        []).1.state.body = []) :=
  ⟨rfl, templateHandler_success sampleTemplates 500 "valid-template" "oops" [111, 111, 112, 115]
    NewRecorder getRoot [] (by decide) (by decide) rfl rfl rfl⟩

/-- C5: when `ServeTemplate(f, d)` gives the error `e`, the function literal that
`GenerateTemplateErrorHandler` builds for `s` and `f` (lines 64-73), called with `d` on
any sink, returns the sink as it was (no call reaches it) and logs one line, which
contains the decimal status `s`, the identifier `f` and the text of `e`. -/
theorem templateHandler_render_failure {Data : Type} (T : Templates Data) (s : Int) (f : String)
    (d : Data) (e : GoError) (w : ResponseWriter) (r : Request)
    (effects : List (Effect Data)) (hserve : T.ServeTemplate f d = Except.error e) :
    (templateErrorRoute T s f d w r effects).1 = { state := w, panic := none } ∧
    (templateErrorRoute T s f d w r effects).2 =
      effects ++ [Effect.serveTemplate f d, Effect.logPrintf (errorServingTemplate s f e)] ∧
    logEntries (templateErrorRoute T s f d w r effects).2 =
      logEntries effects ++ [errorServingTemplate s f e] ∧
    errorServingTemplate s f e =
      "error serving template " ++ fmtD s ++ " " ++ f ++ ": " ++ e.Error ++ "\n" ∧
    (fmtD s).data <:+: (errorServingTemplate s f e).data ∧
    f.data <:+: (errorServingTemplate s f e).data ∧
    e.Error.data <:+: (errorServingTemplate s f e).data := by
  rw [templateErrorRoute_error T s f d e w r effects hserve]
  refine ⟨rfl, rfl, ?_, rfl, ?_, ?_, ?_⟩
  · simp [logEntries_append, logEntries]
  · refine ⟨"error serving template ".data, (" " ++ f ++ ": " ++ e.Error ++ "\n").data, ?_⟩
    simp [errorServingTemplate, String.data_append]
  · refine ⟨("error serving template " ++ fmtD s ++ " ").data, (": " ++ e.Error ++ "\n").data, ?_⟩
    simp [errorServingTemplate, String.data_append]
  · refine ⟨("error serving template " ++ fmtD s ++ " " ++ f ++ ": ").data, "\n".data, ?_⟩
    simp [errorServingTemplate, String.data_append]

theorem templateHandler_render_failure_witness :
    sampleTemplates.ServeTemplate "valid-template" "" = Except.error { Error := "render failed" } ∧
    errorServingTemplate 500 "valid-template" { Error := "render failed" } =
      "error serving template 500 valid-template: render failed\n" ∧
    fmtD 500 = "500" ∧ fmtD (-7) = "-7" ∧
    (templateErrorRoute sampleTemplates 500 "valid-template" "" NewRecorder getRoot []).2 =
      [Effect.serveTemplate "valid-template" "",
        Effect.logPrintf "error serving template 500 valid-template: render failed\n"] ∧
    (templateErrorRoute sampleTemplates 500 "valid-template" "" NewRecorder getRoot []).1 =
      { state := NewRecorder, panic := none } ∧
    (templateErrorRoute sampleTemplates 500 "valid-template" "" NewRecorder getRoot []).2 =
      [] ++ [Effect.serveTemplate "valid-template" "",
        Effect.logPrintf (errorServingTemplate 500 "valid-template" { Error := "render failed" })] ∧
    logEntries (templateErrorRoute sampleTemplates 500 "valid-template" "" NewRecorder getRoot
        []).2 =
      logEntries ([] : List (Effect String)) ++
        [errorServingTemplate 500 "valid-template" { Error := "render failed" }] ∧
    errorServingTemplate 500 "valid-template" { Error := "render failed" } =
      "error serving template " ++ fmtD 500 ++ " " ++ "valid-template" ++ ": " ++
        (GoError.mk "render failed").Error ++ "\n" ∧
    (fmtD 500).data <:+:
      (errorServingTemplate 500 "valid-template" { Error := "render failed" }).data ∧
    "valid-template".data <:+:
      (errorServingTemplate 500 "valid-template" { Error := "render failed" }).data ∧
    (GoError.mk "render failed").Error.data <:+:
      (errorServingTemplate 500 "valid-template" { Error := "render failed" }).data :=
  ⟨rfl, by decide, by decide, by decide, by decide,
    templateHandler_render_failure sampleTemplates 500 "valid-template" ""
      { Error := "render failed" } NewRecorder getRoot [] rfl⟩

/-! ## Route registration -/

theorem ServeMux.entry_cons_self (mux : ServeMux) (pattern : String) (handler : Handler) :
    ServeMux.entry { m := (pattern, handler) :: mux.m } pattern = some handler := by
  simp [ServeMux.entry, List.lookup]

theorem ServeMux.entry_cons_other (mux : ServeMux) (pattern q : String) (handler : Handler)
    (hq : q ≠ pattern) :
    ServeMux.entry { m := (pattern, handler) :: mux.m } q = mux.entry q := by
  have hq2 : (q == pattern) = false := by simpa using hq
  simp [ServeMux.entry, List.lookup, hq2]

/-- An accepted pattern is not empty and not registered yet. -/
theorem MuxRules.accepted (rules : MuxRules) (ps : List String) (p : String) (nilHandler : Bool)
    (hacc : rules.vet ps p nilHandler = none) : p ≠ "" ∧ p ∉ ps ∧ nilHandler = false := by
  refine ⟨?_, ?_, ?_⟩
  · intro hp
    have h := rules.vet_empty ps nilHandler
    rw [← hp, hacc] at h
    exact absurd h (by simp)
  · intro hp
    have h := rules.vet_registered ps p nilHandler hp
    rw [hacc] at h
    exact absurd h (by simp)
  · cases nilHandler with
    | false => rfl
    | true =>
      have h := rules.vet_nil ps p
      rw [hacc] at h
      exact absurd h (by simp)

/-- A refused registration: `HandleFunc` panics with the refusal and the table is as it
was. -/
theorem ServeMux.handleFunc_refused (rules : MuxRules) (mux : ServeMux) (p : String)
    (h : Option RouteHandler) (msg : String)
    (href : rules.vet mux.patterns p h.isNone = some msg) :
    mux.HandleFunc rules p h = { state := mux, panic := some msg } := by
  cases h with
  | none =>
    have href2 : rules.vet mux.patterns p true = some msg := href
    simp [ServeMux.HandleFunc, href2]
  | some f =>
    have href2 : rules.vet mux.patterns p false = some msg := href
    simp [ServeMux.HandleFunc, ServeMux.Handle, href2]

theorem ServeMux.handle_refused (rules : MuxRules) (mux : ServeMux) (p : String)
    (handler : Handler) (msg : String) (href : rules.vet mux.patterns p false = some msg) :
    mux.Handle rules p handler = { state := mux, panic := some msg } := by
  simp [ServeMux.Handle, href]

theorem ServeMux.handle_accepted (rules : MuxRules) (mux : ServeMux) (p : String)
    (handler : Handler) (hacc : rules.vet mux.patterns p false = none) :
    mux.Handle rules p handler =
      { state := { m := (p, handler) :: mux.m }, panic := none } := by
  simp [ServeMux.Handle, hacc]

/-- What every release refuses, as a refusal of `vet`. -/
theorem MuxRules.refuses (rules : MuxRules) (ps : List String) (p : String) (nilHandler : Bool)
    (hbad : p = "" ∨ nilHandler = true ∨ p ∈ ps) :
    ∃ msg, rules.vet ps p nilHandler = some msg := by
  have h : (rules.vet ps p nilHandler).isSome = true := by
    rcases hbad with h1 | h1 | h1
    · rw [h1]
      exact rules.vet_empty ps nilHandler
    · rw [h1]
      exact rules.vet_nil ps p
    · exact rules.vet_registered ps p nilHandler h1
  exact Option.isSome_iff_exists.mp h

theorem okHandler_ne_emptyHandler : okHandler ≠ emptyHandler := by
  intro h
  have h1 := congrArg (fun f : RouteHandler => (f NewRecorder getRoot).state.status) h
  revert h1
  decide

/-- C9, as stated, fails: under the rules of Go up to 1.21, `AddRoute` on a pattern that
is registered already panics in `HandleFunc` and leaves the table as it was, so the
pattern is not registered with the new handler afterwards; so do `AddRoute` on the empty
pattern or with a nil handler, and `StaticRoute` on a registered pattern. -/
theorem addRoute_registered_pattern_panics :
    (AddRoute go121Rules "/" (some okHandler) initialGlobals).panic = none ∧
    (AddRoute go121Rules "/" (some okHandler) initialGlobals).state = rootRegistered ∧
    (AddRoute go121Rules "/" (some emptyHandler) rootRegistered).panic ≠ none ∧
    (AddRoute go121Rules "/" (some emptyHandler) rootRegistered).state = rootRegistered ∧
    (AddRoute go121Rules "/" (some emptyHandler) rootRegistered).state.RouterMux.entry "/" ≠
      some (Handler.HandlerFunc emptyHandler) ∧
    (AddRoute go121Rules "" (some okHandler) initialGlobals).panic ≠ none ∧
    (AddRoute go121Rules "" (some okHandler) initialGlobals).state.RouterMux.entry "" = none ∧
    (AddRoute go121Rules "/x" none initialGlobals).panic ≠ none ∧
    (AddRoute go121Rules "/x" none initialGlobals).state.RouterMux.entry "/x" = none ∧
    (StaticRoute go121Rules "/" "/srv/www" rootRegistered).panic ≠ none ∧
    (StaticRoute go121Rules "/" "/srv/www" rootRegistered).state = rootRegistered := by
  refine ⟨rfl, rfl, by decide, rfl, ?_, by decide, rfl, by decide, rfl, by decide, rfl⟩
  intro h
  have h1 : (AddRoute go121Rules "/" (some emptyHandler) rootRegistered).state.RouterMux.entry
      "/" = some (Handler.HandlerFunc okHandler) := rfl
  rw [h1] at h
  injection h with h2
  injection h2 with h3
  exact okHandler_ne_emptyHandler h3

/-- C9, amended: `AddRoute(p, h)` is `RouterMux.HandleFunc(p, h)` and `StaticRoute(route,
path)` is `RouterMux.Handle(route, http.FileServer(http.Dir(path)))`, whatever the
multiplexer does with them. When the multiplexer accepts the pattern (an accepted
pattern is never empty nor registered already), the pattern is registered afterwards
with `h` (with the file server rooted at `path`, whatever `path` is), the entry of every
other pattern is as before, and no package variable other than `RouterMux` changes.
When it refuses (as it always does for an empty pattern, a nil handler and a pattern
registered already), the call panics with the multiplexer's panic value and every
package variable, `RouterMux` included, is as before. -/
theorem addRoute_staticRoute_register (rules : MuxRules) (p route path : String)
    (h : RouteHandler) (g : Globals)
    (hacc : rules.vet g.RouterMux.patterns p false = none)
    (hacc2 : rules.vet g.RouterMux.patterns route false = none) :
    (∀ (p2 : String) (h2 : Option RouteHandler),
      AddRoute rules p2 h2 g =
        { state := { g with RouterMux := (g.RouterMux.HandleFunc rules p2 h2).state },
          panic := (g.RouterMux.HandleFunc rules p2 h2).panic }) ∧
    (∀ route2 path2 : String,
      StaticRoute rules route2 path2 g =
        { state := { g with RouterMux :=
            (g.RouterMux.Handle rules route2 (Handler.FileServer path2)).state },
          panic := (g.RouterMux.Handle rules route2 (Handler.FileServer path2)).panic }) ∧
    (p ≠ "" ∧ p ∉ g.RouterMux.patterns ∧
      (AddRoute rules p (some h) g).panic = none ∧
      (AddRoute rules p (some h) g).state =
        { g with RouterMux := { m := (p, Handler.HandlerFunc h) :: g.RouterMux.m } } ∧
      (AddRoute rules p (some h) g).state.RouterMux.entry p = some (Handler.HandlerFunc h) ∧
      ∀ q : String, q ≠ p →
        (AddRoute rules p (some h) g).state.RouterMux.entry q = g.RouterMux.entry q) ∧
    (route ≠ "" ∧ route ∉ g.RouterMux.patterns ∧
      (StaticRoute rules route path g).panic = none ∧
      (StaticRoute rules route path g).state =
        { g with RouterMux := { m := (route, Handler.FileServer path) :: g.RouterMux.m } } ∧
      (StaticRoute rules route path g).state.RouterMux.entry route =
        some (Handler.FileServer path) ∧
      ∀ q : String, q ≠ route →
        (StaticRoute rules route path g).state.RouterMux.entry q = g.RouterMux.entry q) ∧
    (∀ (p2 : String) (h2 : Option RouteHandler),
      p2 = "" ∨ h2 = none ∨ p2 ∈ g.RouterMux.patterns →
      ∃ msg, rules.vet g.RouterMux.patterns p2 h2.isNone = some msg ∧
        (AddRoute rules p2 h2 g).panic = some msg ∧ (AddRoute rules p2 h2 g).state = g) ∧
    (∀ route2 path2 : String,
      route2 = "" ∨ route2 ∈ g.RouterMux.patterns →
      ∃ msg, rules.vet g.RouterMux.patterns route2 false = some msg ∧
        (StaticRoute rules route2 path2 g).panic = some msg ∧
        (StaticRoute rules route2 path2 g).state = g) := by
  have ha := rules.accepted g.RouterMux.patterns p false hacc
  have ha2 := rules.accepted g.RouterMux.patterns route false hacc2
  have e1 : AddRoute rules p (some h) g =
      { state := { g with RouterMux := { m := (p, Handler.HandlerFunc h) :: g.RouterMux.m } },
        panic := none } := by
    simp [AddRoute, ServeMux.HandleFunc, ServeMux.handle_accepted rules g.RouterMux p _ hacc]
  have e2 : StaticRoute rules route path g =
      { state := { g with RouterMux := { m := (route, Handler.FileServer path) :: g.RouterMux.m } },
        panic := none } := by
    simp [StaticRoute, ServeMux.handle_accepted rules g.RouterMux route _ hacc2]
  refine ⟨fun _ _ => rfl, fun _ _ => rfl, ⟨ha.1, ha.2.1, ?_, ?_, ?_, ?_⟩,
    ⟨ha2.1, ha2.2.1, ?_, ?_, ?_, ?_⟩, ?_, ?_⟩
  · rw [e1]
  · rw [e1]
  · rw [e1]
    exact ServeMux.entry_cons_self g.RouterMux p _
  · intro q hq
    rw [e1]
    exact ServeMux.entry_cons_other g.RouterMux p q _ hq
  · rw [e2]
  · rw [e2]
  · rw [e2]
    exact ServeMux.entry_cons_self g.RouterMux route _
  · intro q hq
    rw [e2]
    exact ServeMux.entry_cons_other g.RouterMux route q _ hq
  · intro p2 h2 hbad
    have hbad2 : p2 = "" ∨ h2.isNone = true ∨ p2 ∈ g.RouterMux.patterns := by
      rcases hbad with h1 | h1 | h1
      · exact Or.inl h1
      · exact Or.inr (Or.inl (by rw [h1]; rfl))
      · exact Or.inr (Or.inr h1)
    obtain ⟨msg, hmsg⟩ := rules.refuses g.RouterMux.patterns p2 h2.isNone hbad2
    refine ⟨msg, hmsg, ?_, ?_⟩
    · simp [AddRoute, ServeMux.handleFunc_refused rules g.RouterMux p2 h2 msg hmsg]
    · simp [AddRoute, ServeMux.handleFunc_refused rules g.RouterMux p2 h2 msg hmsg]
  · intro route2 path2 hbad
    have hbad2 : route2 = "" ∨ false = true ∨ route2 ∈ g.RouterMux.patterns := by
      rcases hbad with h1 | h1
      · exact Or.inl h1
      · exact Or.inr (Or.inr h1)
    obtain ⟨msg, hmsg⟩ := rules.refuses g.RouterMux.patterns route2 false hbad2
    refine ⟨msg, hmsg, ?_, ?_⟩
    · simp [StaticRoute, ServeMux.handle_refused rules g.RouterMux route2 _ msg hmsg]
    · simp [StaticRoute, ServeMux.handle_refused rules g.RouterMux route2 _ msg hmsg]

theorem addRoute_staticRoute_register_witness :
    go121Rules.vet rootRegistered.RouterMux.patterns "/hello" false = none ∧
    go121Rules.vet rootRegistered.RouterMux.patterns "/assets/" false = none ∧
    (
    (∀ (p2 : String) (h2 : Option RouteHandler),
      AddRoute go121Rules p2 h2 rootRegistered =
        { state := { rootRegistered with RouterMux := (rootRegistered.RouterMux.HandleFunc go121Rules p2 h2).state },
          panic := (rootRegistered.RouterMux.HandleFunc go121Rules p2 h2).panic }) ∧
    (∀ route2 path2 : String,
      StaticRoute go121Rules route2 path2 rootRegistered =
        { state := { rootRegistered with RouterMux :=
            (rootRegistered.RouterMux.Handle go121Rules route2 (Handler.FileServer path2)).state },
          panic := (rootRegistered.RouterMux.Handle go121Rules route2 (Handler.FileServer path2)).panic }) ∧
    ("/hello" ≠ "" ∧ "/hello" ∉ rootRegistered.RouterMux.patterns ∧
      (AddRoute go121Rules "/hello" (some emptyHandler) rootRegistered).panic = none ∧
      (AddRoute go121Rules "/hello" (some emptyHandler) rootRegistered).state =
        { rootRegistered with RouterMux := { m := ("/hello", Handler.HandlerFunc emptyHandler) :: rootRegistered.RouterMux.m } } ∧
      (AddRoute go121Rules "/hello" (some emptyHandler) rootRegistered).state.RouterMux.entry "/hello" = some (Handler.HandlerFunc emptyHandler) ∧
      ∀ q : String, q ≠ "/hello" →
        (AddRoute go121Rules "/hello" (some emptyHandler) rootRegistered).state.RouterMux.entry q = rootRegistered.RouterMux.entry q) ∧
    ("/assets/" ≠ "" ∧ "/assets/" ∉ rootRegistered.RouterMux.patterns ∧
      (StaticRoute go121Rules "/assets/" "/no/such/dir" rootRegistered).panic = none ∧
      (StaticRoute go121Rules "/assets/" "/no/such/dir" rootRegistered).state =
        { rootRegistered with RouterMux := { m := ("/assets/", Handler.FileServer "/no/such/dir") :: rootRegistered.RouterMux.m } } ∧
      (StaticRoute go121Rules "/assets/" "/no/such/dir" rootRegistered).state.RouterMux.entry "/assets/" =
        some (Handler.FileServer "/no/such/dir") ∧
      ∀ q : String, q ≠ "/assets/" →
        (StaticRoute go121Rules "/assets/" "/no/such/dir" rootRegistered).state.RouterMux.entry q = rootRegistered.RouterMux.entry q) ∧
    (∀ (p2 : String) (h2 : Option RouteHandler),
      p2 = "" ∨ h2 = none ∨ p2 ∈ rootRegistered.RouterMux.patterns →
      ∃ msg, go121Rules.vet rootRegistered.RouterMux.patterns p2 h2.isNone = some msg ∧
        (AddRoute go121Rules p2 h2 rootRegistered).panic = some msg ∧ (AddRoute go121Rules p2 h2 rootRegistered).state = rootRegistered) ∧
    (∀ route2 path2 : String,
      route2 = "" ∨ route2 ∈ rootRegistered.RouterMux.patterns →
      ∃ msg, go121Rules.vet rootRegistered.RouterMux.patterns route2 false = some msg ∧
        (StaticRoute go121Rules route2 path2 rootRegistered).panic = some msg ∧
        (StaticRoute go121Rules route2 path2 rootRegistered).state = rootRegistered)) :=
  ⟨by decide, by decide,
    addRoute_staticRoute_register go121Rules "/hello" "/assets/" "/no/such/dir" emptyHandler
      rootRegistered (by decide) (by decide)⟩

end Webshell
